import Mathlib

/-!
Verification of the packaging script `setup.py` of the saucestorage
repository.  The script resolves a package name and version (either from a
development marker file `version.sh` or from a `PKG-INFO` metadata file)
and then registers the package via `setup(...)`.

Python strings are modelled as lists of characters (`PyStr`); the Python
string operations used by the script (`startswith`, `split`, `strip`,
`replace`, `format`) are embedded below.  The script's interaction with the
file system and with the external `version.sh` command is captured by an
explicit environment record `Env`; the script itself becomes the function
`runScript : Env → Except PyError SetupArgs`.
-/

/-- Python strings, modelled as lists of characters. -/
abbrev PyStr := List Char

/-- Shorthand turning a Lean string literal into a `PyStr`. -/
def str (s : String) : PyStr := s.data

/-- Python `s.startswith(p)`. -/
def pyStartswith (s p : PyStr) : Bool := p.isPrefixOf s

/-- Python whitespace, as removed by `str.strip()`. -/
def isPySpace (c : Char) : Bool :=
  c = ' ' || c = '\t' || c = '\n' || c = '\x0d' || c = '\x0b' || c = '\x0c'

/-- Python `s.strip()`: removes leading and trailing whitespace. -/
def pyStrip (s : PyStr) : PyStr :=
  ((s.dropWhile isPySpace).reverse.dropWhile isPySpace).reverse

/-- Python `s.split(sep)` for a single-character separator: splits at every
occurrence of `sep`, keeping empty pieces. -/
def pySplit (sep : Char) : PyStr → List PyStr
  | [] => [[]]
  | c :: rest =>
    if c = sep then [] :: pySplit sep rest
    else
      match pySplit sep rest with
      | [] => [[c]]
      | r :: rs => (c :: r) :: rs

/-- Scanner behind `pyReplace`: walks the string once; `skip` counts
characters still to be dropped because they belong to an occurrence of the
pattern that has already been replaced. -/
def pyReplaceAux (pat rep : PyStr) : PyStr → Nat → PyStr
  | [], _ => []
  | _ :: rest, Nat.succ n => pyReplaceAux pat rep rest n
  | c :: rest, 0 =>
    if pat ≠ [] ∧ pat.isPrefixOf (c :: rest) then
      rep ++ pyReplaceAux pat rep rest (pat.length - 1)
    else
      c :: pyReplaceAux pat rep rest 0

/-- Python `s.replace(pat, rep)` for a non-empty pattern `pat`: replaces
every (left-to-right, non-overlapping) occurrence of `pat` by `rep`. -/
def pyReplace (s pat rep : PyStr) : PyStr := pyReplaceAux pat rep s 0

/-- The ways the script can fail, mirroring the Python exceptions that the
source can raise: `check_output` on a failing command raises
`CalledProcessError`, `open` on a missing `PKG-INFO` raises `IOError`, and
using a never-assigned variable (`version` / `package_name`) raises
`NameError`. -/
inductive PyError where
  | calledProcessError
  | ioError
  | nameError
deriving Repr, DecidableEq

/-- The environment the script runs in: which files exist, what the
external `version.sh` command prints (`none` when it exits non-zero), the
base name of the script's directory, the lines of `PKG-INFO` (`none` when
the file is absent), and the result of `find_packages()`. -/
structure Env where
  versionShExists : Bool
  versionShOutput : Option PyStr
  hereBasename : PyStr
  pkgInfoLines : Option (List PyStr)
  foundPackages : List PyStr
deriving Repr, DecidableEq

/-- `line.split(":")[1].strip()` — the value extracted from a matching
`PKG-INFO` line (the text between the first and second colon, stripped).
Every line this is applied to starts with `"Version:"` or `"Name:"`, so
index 1 of the split always exists; it is totalised with `getD`. -/
def fieldValue (line : PyStr) : PyStr :=
  pyStrip (((pySplit ':' line).get? 1).getD [])

/-- `line.startswith("Version:")`. -/
def startsV (line : PyStr) : Bool := pyStartswith line (str "Version:")

/-- `line.startswith("Name:")`. -/
def startsN (line : PyStr) : Bool := pyStartswith line (str "Name:")

/-- One iteration of the `for line in f.readlines()` loop (lines 14–18 of
`setup.py`): the pair is `(version, package_name)`, with `none` standing
for a not-yet-assigned variable.  The `elif` makes the `Name:` test
reachable only when the `Version:` test failed. -/
def scanStep (acc : Option PyStr × Option PyStr) (line : PyStr) :
    Option PyStr × Option PyStr :=
  if startsV line then (some (fieldValue line), acc.2)
  else if startsN line then (acc.1, some (fieldValue line))
  else acc

/-- The whole `PKG-INFO` scanning loop: fold `scanStep` over the file's
lines starting from both variables unassigned. -/
def scanPkgData (lines : List PyStr) : Option PyStr × Option PyStr :=
  lines.foldl scanStep (none, none)

/-- Lines 9–18 of `setup.py`: resolve `(version, package_name)` (each
possibly still unassigned).  In development mode (`version.sh` exists) the
version is the stripped output of the command and the name is the base name
of the script's directory; otherwise `PKG-INFO` is opened and scanned. -/
def resolveNames (env : Env) : Except PyError (Option PyStr × Option PyStr) :=
  if env.versionShExists then
    match env.versionShOutput with
    | none => .error .calledProcessError
    | some out => .ok (some (pyStrip out), some env.hereBasename)
  else
    match env.pkgInfoLines with
    | none => .error .ioError
    | some lines => .ok (scanPkgData lines)

/-- Line 19 of `setup.py`: `package = package_name.replace('-', '_')`. -/
def package (package_name : PyStr) : PyStr :=
  pyReplace package_name (str "-") (str "_")

/-- The keyword arguments of the `setup(...)` call (lines 21–41). -/
structure SetupArgs where
  name : PyStr
  version : PyStr
  description : PyStr
  url : PyStr
  author : PyStr
  author_email : PyStr
  classifiers : List PyStr
  packages : List PyStr
  install_requires : List PyStr
  package_data : List (PyStr × List PyStr)
  scripts : List PyStr
deriving Repr, DecidableEq

/-- The keyword arguments passed to `setup(...)` on lines 21–41, given the
resolved `package_name` and `version`; `{}` in the url format string is
filled with the package name. -/
def setupCall (env : Env) (package_name version : PyStr) : SetupArgs where
  name := package_name
  version := version
  description := str "Sauce Labs Storage API library and command-line tool"
  url := str "https://github.com/saucelabs/" ++ package_name
  author := str "Sauce Labs"
  author_email := str "dev@saucelabs.com"
  classifiers := [
    str "Development Status :: 3 - Alpha",
    str "Intended Audience :: Developers",
    str "Topic :: Utilities",
    str "License :: OSI Approved :: Apache Software License",
    str "Programming Language :: Python :: 2.7"]
  packages := env.foundPackages
  install_requires := []
  package_data := [(package package_name, [str "version.json"])]
  scripts := [str "bin/saucestorage"]

/-- The whole script: resolve the names, then build the `setup(...)` call.
Reading a variable that was never assigned raises `NameError`:
`package_name` is read first (line 19), then `version` (line 23, evaluated
when the arguments of `setup` are built). -/
def runScript (env : Env) : Except PyError SetupArgs := do
  let (versionVar, packageNameVar) ← resolveNames env
  match packageNameVar with
  | none => .error .nameError
  | some package_name =>
    match versionVar with
    | none => .error .nameError
    | some version => .ok (setupCall env package_name version)

/-- A development-mode environment: `version.sh` exists and prints
`"1.2.3\n"`; no `PKG-INFO` is present. -/
def envDev : Env where
  versionShExists := true
  versionShOutput := some (str "1.2.3\n")
  hereBasename := str "saucestorage"
  pkgInfoLines := none
  foundPackages := [str "saucestorage"]

/-- A source-package environment: no `version.sh`; `PKG-INFO` holds a
`Name:` and a `Version:` line. -/
def envSrc : Env where
  versionShExists := false
  versionShOutput := none
  hereBasename := str "saucestorage"
  pkgInfoLines := some [str "Name: foo-bar", str "Version: 1.2.3"]
  foundPackages := [str "foo_bar"]

/-! ### General lemmas about the embedded script -/

/-- If `x` is in the list, satisfies `p`, and is the only element of the
list satisfying `p`, then `find?` returns it. -/
theorem find?_unique {α : Type} {p : α → Bool} {x : α} {lines : List α}
    (hmem : x ∈ lines) (hx : p x = true)
    (huniq : ∀ l ∈ lines, p l = true → l = x) :
    lines.find? p = some x := by
  induction lines with
  | nil => exact absurd hmem (List.not_mem_nil x)
  | cons y ys ih =>
    by_cases hy : p y = true
    · have hyx : y = x := huniq y (List.mem_cons_self y ys) hy
      subst hyx
      exact List.find?_cons_of_pos ys hy
    · have hxy : x ∈ ys := by
        rcases List.mem_cons.mp hmem with h | h
        · exact absurd (h ▸ hx) hy
        · exact h
      rw [List.find?_cons_of_neg ys hy]
      exact ih hxy fun l hl hpl => huniq l (List.mem_cons_of_mem y hl) hpl

/-- In development mode with a succeeding `version.sh`, the script calls
`setup` with the directory base name and the stripped command output. -/
theorem runScript_dev (env : Env) (out : PyStr)
    (h1 : env.versionShExists = true) (h2 : env.versionShOutput = some out) :
    runScript env = Except.ok (setupCall env env.hereBasename (pyStrip out)) := by
  have hres : resolveNames env
      = Except.ok (some (pyStrip out), some env.hereBasename) := by
    simp [resolveNames, h1, h2]
  unfold runScript
  rw [hres]
  rfl

/-- In development mode with a failing `version.sh`, the script propagates
`CalledProcessError`. -/
theorem runScript_dev_fail (env : Env)
    (h1 : env.versionShExists = true) (h2 : env.versionShOutput = none) :
    runScript env = Except.error PyError.calledProcessError := by
  have hres : resolveNames env = Except.error PyError.calledProcessError := by
    simp [resolveNames, h1, h2]
  unfold runScript
  rw [hres]
  rfl

/-- In source-package mode with no `PKG-INFO`, the script propagates
`IOError` from `open`. -/
theorem runScript_no_pkgdata (env : Env)
    (h1 : env.versionShExists = false) (h2 : env.pkgInfoLines = none) :
    runScript env = Except.error PyError.ioError := by
  have hres : resolveNames env = Except.error PyError.ioError := by
    simp [resolveNames, h1, h2]
  unfold runScript
  rw [hres]
  rfl

/-- In source-package mode, the outcome of the script is determined by the
scan of the `PKG-INFO` lines. -/
theorem runScript_src (env : Env) (lines : List PyStr)
    (h1 : env.versionShExists = false) (h2 : env.pkgInfoLines = some lines) :
    runScript env =
      match scanPkgData lines with
      | (_, none) => Except.error PyError.nameError
      | (none, some _) => Except.error PyError.nameError
      | (some v, some n) => Except.ok (setupCall env n v) := by
  have hres : resolveNames env = Except.ok (scanPkgData lines) := by
    simp [resolveNames, h1, h2]
  unfold runScript
  rw [hres]
  rcases scanPkgData lines with ⟨v, n⟩
  rcases n with _ | n <;> rcases v with _ | v <;> rfl

/-- Lines that fail both prefix tests leave the loop state unchanged. -/
theorem foldl_scanStep_skip (acc : Option PyStr × Option PyStr)
    (lines : List PyStr)
    (h : ∀ l ∈ lines, startsV l = false ∧ startsN l = false) :
    lines.foldl scanStep acc = acc := by
  induction lines generalizing acc with
  | nil => rfl
  | cons x xs ih =>
    have hx := h x (List.mem_cons_self x xs)
    rw [List.foldl_cons, scanStep, hx.1, hx.2]
    simp only [Bool.false_eq_true, if_false]
    exact ih acc fun l hl => h l (List.mem_cons_of_mem x hl)

/-- Characterisation of the scanning loop: because each matching line
overwrites the variable, the final `version` comes from the last line that
starts with `"Version:"`, and the final `package_name` from the last line
that starts with `"Name:"` but not with `"Version:"` (the `elif`); a last
match is a first match in the reversed list. -/
theorem scanPkgData_eq_find (lines : List PyStr) :
    scanPkgData lines =
      ((lines.reverse.find? startsV).map fieldValue,
       (lines.reverse.find? (fun l => !startsV l && startsN l)).map fieldValue) := by
  induction lines using List.reverseRecOn with
  | nil => rfl
  | append_singleton l x ih =>
    have h1 : scanPkgData (l ++ [x]) = scanStep (scanPkgData l) x := by
      simp [scanPkgData, List.foldl_append]
    have h2 : (l ++ [x]).reverse = x :: l.reverse := by simp
    rw [h1, ih, h2, scanStep]
    by_cases hv : startsV x
    · simp [List.find?_cons, hv]
    · by_cases hn : startsN x
      · simp [List.find?_cons, hv, hn]
      · simp [List.find?_cons, hv, hn]

/-- `pySplit` never returns an empty list of pieces. -/
theorem pySplit_ne_nil (sep : Char) : ∀ s : PyStr, pySplit sep s ≠ []
  | [] => by simp [pySplit]
  | c :: rest => by
    unfold pySplit
    split
    · simp
    · split
      · simp
      · simp

/-- Splitting at the first separator occurrence: the separator-free part
before it becomes the first piece. -/
theorem pySplit_append (sep : Char) (a rest : PyStr) (h : sep ∉ a) :
    pySplit sep (a ++ sep :: rest) = a :: pySplit sep rest := by
  induction a with
  | nil => simp [pySplit]
  | cons c cs ih =>
    have hc : ¬ c = sep := fun hcc => h (hcc ▸ List.mem_cons_self c cs)
    have hcs : sep ∉ cs := fun hm => h (List.mem_cons_of_mem c hm)
    rw [List.cons_append, pySplit, if_neg hc, ih hcs]

/-- The value taken from a line with at least two colons is the stripped
text between the first and the second colon. -/
theorem fieldValue_two_colons (a b c : PyStr) (ha : ':' ∉ a) (hb : ':' ∉ b) :
    fieldValue (a ++ ':' :: (b ++ ':' :: c)) = pyStrip b := by
  unfold fieldValue
  rw [pySplit_append ':' a (b ++ ':' :: c) ha, pySplit_append ':' b c hb]
  rfl

/-- Replacing the single-character pattern `"-"` by `"_"` is the
character-wise map sending `'-'` to `'_'`. -/
theorem pyReplaceAux_dash (s : PyStr) :
    pyReplaceAux ['-'] ['_'] s 0 = s.map fun c => if c = '-' then '_' else c := by
  induction s with
  | nil => rfl
  | cons c rest ih =>
    rw [pyReplaceAux, List.map_cons]
    by_cases hc : c = '-'
    · rw [if_pos]
      · have h0 : (['-'] : PyStr).length - 1 = 0 := rfl
        rw [h0, ih, hc]
        rfl
      · subst hc
        exact ⟨by simp, by simp [List.isPrefixOf]⟩
    · rw [if_neg, ih, if_neg hc]
      rintro ⟨-, hpre⟩
      simp [List.isPrefixOf] at hpre
      exact hc hpre.symm

/-! ### The claims -/

/-- C1: when the development marker file `version.sh` exists and running it
succeeds, the resolved version is the trimmed output of invoking it, the
resolved package name is the base name of the script's own directory, and
the metadata-file branch is not taken: the outcome does not depend on the
`PKG-INFO` contents at all. -/
theorem claim_c1_dev_marker (env : Env) (out : PyStr)
    (h1 : env.versionShExists = true) (h2 : env.versionShOutput = some out) :
    (∃ args : SetupArgs, runScript env = Except.ok args ∧
        args.version = pyStrip out ∧ args.name = env.hereBasename) ∧
    ∀ p, runScript { env with pkgInfoLines := p } = runScript env := by
  constructor
  · exact ⟨setupCall env env.hereBasename (pyStrip out),
      runScript_dev env out h1 h2, rfl, rfl⟩
  · intro p
    rw [runScript_dev { env with pkgInfoLines := p } out h1 h2,
        runScript_dev env out h1 h2]
    rfl

/-- Witness for C1 at a concrete development environment. -/
theorem claim_c1_witness :
    (∃ args : SetupArgs, runScript envDev = Except.ok args ∧
        args.version = pyStrip (str "1.2.3\n") ∧
        args.name = envDev.hereBasename) ∧
    runScript { envDev with pkgInfoLines := some [] } = runScript envDev :=
  ⟨(claim_c1_dev_marker envDev (str "1.2.3\n") rfl rfl).1,
   (claim_c1_dev_marker envDev (str "1.2.3\n") rfl rfl).2 (some [])⟩

/-- C2: with no development marker and a `PKG-INFO` containing a line
`Name: foo-bar` and a line `Version: 1.2.3`, and no other lines starting
with those prefixes, the resolved name is `foo-bar` and the resolved
version is `1.2.3` (text after the first colon, whitespace stripped). -/
theorem claim_c2_pkgdata_fields (env : Env) (lines : List PyStr)
    (h1 : env.versionShExists = false) (h2 : env.pkgInfoLines = some lines)
    (hv : str "Version: 1.2.3" ∈ lines) (hn : str "Name: foo-bar" ∈ lines)
    (hvu : ∀ l ∈ lines, startsV l = true → l = str "Version: 1.2.3")
    (hnu : ∀ l ∈ lines, startsN l = true → l = str "Name: foo-bar") :
    ∃ args : SetupArgs, runScript env = Except.ok args ∧
      args.name = str "foo-bar" ∧ args.version = str "1.2.3" := by
  have hscan : scanPkgData lines = (some (str "1.2.3"), some (str "foo-bar")) := by
    rw [scanPkgData_eq_find]
    have hfv : lines.reverse.find? startsV = some (str "Version: 1.2.3") := by
      apply find?_unique (List.mem_reverse.mpr hv) (by decide)
      intro l hl hpl
      exact hvu l (List.mem_reverse.mp hl) hpl
    have hfn : lines.reverse.find? (fun l => !startsV l && startsN l)
        = some (str "Name: foo-bar") := by
      apply find?_unique (List.mem_reverse.mpr hn) (by decide)
      intro l hl hpl
      exact hnu l (List.mem_reverse.mp hl) ((Bool.and_eq_true _ _).mp hpl).2
    rw [hfv, hfn]
    decide
  rw [runScript_src env lines h1 h2, hscan]
  exact ⟨setupCall env (str "foo-bar") (str "1.2.3"), rfl, rfl, rfl⟩

/-- Witness for C2 at a concrete source-package environment. -/
theorem claim_c2_witness :
    ∃ args : SetupArgs, runScript envSrc = Except.ok args ∧
      args.name = str "foo-bar" ∧ args.version = str "1.2.3" :=
  claim_c2_pkgdata_fields envSrc [str "Name: foo-bar", str "Version: 1.2.3"]
    rfl rfl (by decide) (by decide) (by decide) (by decide)

/-- C3 (counterexample): the claim says the first matching `Version:` /
`Name:` line wins, but on a `PKG-INFO` with two lines of each kind the
scan keeps the values of the last ones. -/
theorem claim_c3_counterexample :
    scanPkgData [str "Version: 1.0", str "Version: 2.0",
        str "Name: alpha", str "Name: beta"]
      ≠ (some (str "1.0"), some (str "alpha")) ∧
    scanPkgData [str "Version: 1.0", str "Version: 2.0",
        str "Name: alpha", str "Name: beta"]
      = (some (str "2.0"), some (str "beta")) := by
  decide

/-- C3 (amended): with several matching lines, the resolved version is
taken from the *last* line starting with `"Version:"` and the resolved
name from the *last* line starting with `"Name:"` (and not `"Version:"`,
because of the `elif`); a last match is the first match of the reversed
line list. -/
theorem claim_c3_last_match_wins (lines : List PyStr) :
    scanPkgData lines =
      ((lines.reverse.find? startsV).map fieldValue,
       (lines.reverse.find? (fun l => !startsV l && startsN l)).map fieldValue) :=
  scanPkgData_eq_find lines

/-- C4: the derived importable module name replaces every occurrence of a
hyphen in the package name by an underscore and keeps every other
character unchanged. -/
theorem claim_c4_module_name (n : PyStr) :
    package n = n.map fun c => if c = '-' then '_' else c :=
  pyReplaceAux_dash n

/-- C5: with neither `version.sh` nor `PKG-INFO` present, the script fails
with the propagated error of `open`, and never reaches `setup`. -/
theorem claim_c5_missing_both (env : Env)
    (h1 : env.versionShExists = false) (h2 : env.pkgInfoLines = none) :
    runScript env = Except.error PyError.ioError :=
  runScript_no_pkgdata env h1 h2

/-- Witness for C5 at a concrete environment with neither file. -/
theorem claim_c5_witness :
    runScript { versionShExists := false, versionShOutput := none,
                hereBasename := str "saucestorage", pkgInfoLines := none,
                foundPackages := [] }
      = Except.error PyError.ioError :=
  claim_c5_missing_both _ rfl rfl

/-- C6: when `version.sh` exists but invoking it fails, the script fails
with the propagated `CalledProcessError` and never reaches `setup`. -/
theorem claim_c6_command_failure (env : Env)
    (h1 : env.versionShExists = true) (h2 : env.versionShOutput = none) :
    runScript env = Except.error PyError.calledProcessError :=
  runScript_dev_fail env h1 h2

/-- Witness for C6 at a concrete environment with a failing command. -/
theorem claim_c6_witness :
    runScript { envDev with versionShOutput := none }
      = Except.error PyError.calledProcessError :=
  claim_c6_command_failure _ rfl rfl

/-- C7: in source-package mode, when `PKG-INFO` has no `Version:` line
(resp. no `Name:` line), the corresponding variable is simply never
assigned — the loop raises no handled error — and the defect only surfaces
downstream, when the unassigned variable is read (`NameError`). -/
theorem claim_c7_missing_field (env : Env) (lines : List PyStr)
    (h1 : env.versionShExists = false) (h2 : env.pkgInfoLines = some lines) :
    ((∀ l ∈ lines, startsV l = false) →
        (scanPkgData lines).1 = none ∧
        runScript env = Except.error PyError.nameError) ∧
    ((∀ l ∈ lines, startsN l = false) →
        (scanPkgData lines).2 = none ∧
        runScript env = Except.error PyError.nameError) := by
  constructor
  · intro hno
    have hfind : lines.reverse.find? startsV = none := by
      rw [List.find?_eq_none]
      intro x hx
      simp [hno x (List.mem_reverse.mp hx)]
    have hv1 : (scanPkgData lines).1 = none := by
      rw [scanPkgData_eq_find, hfind]
      rfl
    refine ⟨hv1, ?_⟩
    rw [runScript_src env lines h1 h2]
    rcases hsc : scanPkgData lines with ⟨v, n⟩
    rw [hsc] at hv1
    cases hv1
    rcases n with _ | n <;> rfl
  · intro hno
    have hfind : lines.reverse.find? (fun l => !startsV l && startsN l) = none := by
      rw [List.find?_eq_none]
      intro x hx
      simp [hno x (List.mem_reverse.mp hx)]
    have hn1 : (scanPkgData lines).2 = none := by
      rw [scanPkgData_eq_find, hfind]
      rfl
    refine ⟨hn1, ?_⟩
    rw [runScript_src env lines h1 h2]
    rcases hsc : scanPkgData lines with ⟨v, n⟩
    rw [hsc] at hn1
    cases hn1
    rcases v with _ | v <;> rfl

/-- Witness for C7 at a concrete environment with an empty `PKG-INFO`. -/
theorem claim_c7_witness :
    (scanPkgData ([] : List PyStr)).1 = none ∧
    runScript { envSrc with pkgInfoLines := some [] }
      = Except.error PyError.nameError :=
  (claim_c7_missing_field { envSrc with pkgInfoLines := some [] } [] rfl rfl).1
    (by decide)

/-- C8: whenever resolution succeeds, the registration declares exactly
one installable script path, `bin/saucestorage`, and exactly one bundled
data-file pattern, `version.json`, keyed by the underscored module name. -/
theorem claim_c8_registration (env : Env) (args : SetupArgs)
    (h : runScript env = Except.ok args) :
    args.scripts = [str "bin/saucestorage"] ∧
    args.package_data = [(package args.name, [str "version.json"])] := by
  have hshape : ∃ n v, args = setupCall env n v := by
    cases hb : env.versionShExists
    · cases hp : env.pkgInfoLines with
      | none =>
        rw [runScript_no_pkgdata env hb hp] at h
        exact Except.noConfusion h
      | some lines =>
        rw [runScript_src env lines hb hp] at h
        rcases hsc : scanPkgData lines with ⟨v, n⟩
        rw [hsc] at h
        rcases n with _ | n
        · rcases v with _ | v
          · exact Except.noConfusion h
          · exact Except.noConfusion h
        · rcases v with _ | v
          · exact Except.noConfusion h
          · injection h with h'
            exact ⟨n, v, h'.symm⟩
    · cases ho : env.versionShOutput with
      | none =>
        rw [runScript_dev_fail env hb ho] at h
        exact Except.noConfusion h
      | some out =>
        rw [runScript_dev env out hb ho] at h
        injection h with h'
        exact ⟨env.hereBasename, pyStrip out, h'.symm⟩
  obtain ⟨n, v, rfl⟩ := hshape
  exact ⟨rfl, rfl⟩

/-- Witness for C8 at the concrete development environment. -/
theorem claim_c8_witness :
    (setupCall envDev (str "saucestorage") (str "1.2.3")).scripts
      = [str "bin/saucestorage"] ∧
    (setupCall envDev (str "saucestorage") (str "1.2.3")).package_data
      = [(package (setupCall envDev (str "saucestorage") (str "1.2.3")).name,
          [str "version.json"])] :=
  claim_c8_registration envDev (setupCall envDev (str "saucestorage") (str "1.2.3"))
    (by
      rw [runScript_dev envDev (str "1.2.3\n") rfl rfl]
      exact congrArg Except.ok (by decide))

/-- C9: a field value containing a colon is truncated at it — the
extracted value is only the stripped text between the first and the second
colon of the line. -/
theorem claim_c9_colon_truncation (a b c : PyStr) (ha : ':' ∉ a) (hb : ':' ∉ b) :
    fieldValue (a ++ ':' :: (b ++ ':' :: c)) = pyStrip b :=
  fieldValue_two_colons a b c ha hb

/-- Witness for C9: on the line `Version: 1:2.3` the extracted value is
`1`, not `1:2.3`. -/
theorem claim_c9_witness :
    fieldValue (str "Version: 1:2.3") = str "1" ∧ str "1" ≠ str "1:2.3" := by
  constructor
  · have h := claim_c9_colon_truncation (str "Version") (str " 1") (str "2.3")
      (by decide) (by decide)
    have he : str "Version: 1:2.3"
        = str "Version" ++ ':' :: (str " 1" ++ ':' :: str "2.3") := by decide
    rw [he, h]
    decide
  · decide

/-- C10: when `version.sh` exists, `PKG-INFO` is never opened: its absence
or arbitrary (even malformed) contents cannot change the run's outcome,
so neither the resolved name and version nor any failure depends on it. -/
theorem claim_c10_pkgdata_ignored (e₁ e₂ : Env)
    (h : e₁.versionShExists = true)
    (ha : e₂.versionShExists = e₁.versionShExists)
    (hb : e₂.versionShOutput = e₁.versionShOutput)
    (hc : e₂.hereBasename = e₁.hereBasename)
    (hd : e₂.foundPackages = e₁.foundPackages) :
    runScript e₂ = runScript e₁ := by
  cases ho : e₁.versionShOutput with
  | none =>
    rw [runScript_dev_fail e₁ h ho,
        runScript_dev_fail e₂ (ha.trans h) (hb.trans ho)]
  | some out =>
    rw [runScript_dev e₁ out h ho,
        runScript_dev e₂ out (ha.trans h) (hb.trans ho)]
    simp [setupCall, hc, hd]

/-- Witness for C10: a missing `PKG-INFO` and a malformed one give the
same outcome in development mode. -/
theorem claim_c10_witness :
    runScript { envDev with pkgInfoLines := some [str "garbage"] }
      = runScript { envDev with pkgInfoLines := none } :=
  claim_c10_pkgdata_ignored { envDev with pkgInfoLines := none }
    { envDev with pkgInfoLines := some [str "garbage"] } rfl rfl rfl rfl rfl
